import Mathlib

/-!
Verification development for the `george2sepa` CSV → SEPA XML converter.

The Python source (`sepa_converter.py`, `sepatool.py`) is shallowly embedded:
* strings are `String` / `List Char`,
* Python `float` amounts are modelled as exact rationals (`ℚ`); the binary
  floating-point representation is not modelled, and `f"{x:.2f}"` rounding is
  modelled as rounding half up on the exact value — identical on all values
  representable exactly in cents, which is the regime of every claim below,
* fallible operations (`float(..)`, `int(..)`) return `Option`,
* the mutable `xml.etree.ElementTree` build is translated to the final
  immutable element tree it produces, with the post-traversal counter
  stamping (`NbOfTxs`, `CtrlSum`) substituted at the stamped positions,
* `uuid.uuid4()` / `datetime.now()` are modelled as an environment of opaque
  token inputs (`Env`), since no claim depends on their values,
* `raise ValueError` / early-`return` error paths become `Except` errors;
  an `Except.error` result means no output file is written.
-/

/-- ASCII decimal digit test (`'0'` to `'9'`). -/
def isDigitC (c : Char) : Bool := 48 ≤ c.toNat && c.toNat ≤ 57

/-- Whitespace characters stripped by Python `str.strip()` (ASCII subset). -/
def isSpaceC (c : Char) : Bool :=
  c.toNat = 32 || c.toNat = 9 || c.toNat = 10 || c.toNat = 13 || c.toNat = 11 || c.toNat = 12

/-- Numeric value of a list of decimal digit characters. -/
def digitsVal (cs : List Char) : Nat := cs.foldl (fun a c => 10 * a + (c.toNat - 48)) 0

/-- Numeric value of a digit string. -/
def digitsValStr (s : String) : Nat := digitsVal s.data

/-- All characters are decimal digits. -/
def allDigits (s : String) : Bool := s.data.all isDigitC

/-- Python `str.strip()` on a character list. -/
def pyStripL (cs : List Char) : List Char :=
  ((cs.dropWhile isSpaceC).reverse.dropWhile isSpaceC).reverse

/-- Python `str.strip()`. -/
def pyStrip (s : String) : String := String.mk (pyStripL s.data)

/-- Consume an optional leading sign; returns (isNegative, rest). -/
def splitSign : List Char → Bool × List Char
  | [] => (false, [])
  | c :: cs => if c = '-' then (true, cs) else if c = '+' then (false, cs) else (false, c :: cs)

/-- Consume an optional fractional part `.digits`; returns (fracDigits, rest). -/
def takeFrac : List Char → List Char × List Char
  | [] => ([], [])
  | c :: r => if c = '.' then (r.takeWhile isDigitC, r.dropWhile isDigitC) else ([], c :: r)

/-- Exponent suffix of a Python float literal (after `e`/`E`). -/
def pyExpPart (m : ℚ) (cs : List Char) : Option ℚ :=
  let p := splitSign cs
  let ed := p.2.takeWhile isDigitC
  let rest := p.2.dropWhile isDigitC
  if ed = [] ∨ rest ≠ [] then none
  else some (m * (10 : ℚ) ^ (if p.1 then -(digitsVal ed : ℤ) else (digitsVal ed : ℤ)))

/-- Mantissa followed by an optional exponent marker. -/
def finishMant (signed : ℚ) : List Char → Option ℚ
  | [] => some signed
  | c :: r => if c = 'e' ∨ c = 'E' then pyExpPart signed r else none

/-- Core of Python `float(..)` on finite decimal literals (sign, integer part,
optional fraction, optional exponent). `inf`/`nan` and digit-grouping
underscores are outside the model; every claim below stays within it. -/
def pyFloatCore (cs : List Char) : Option ℚ :=
  let p := splitSign cs
  let ip := p.2.takeWhile isDigitC
  let cs2 := p.2.dropWhile isDigitC
  let q := takeFrac cs2
  if ip.length + q.1.length = 0 then none
  else
    let mant : ℚ := (digitsVal ip : ℚ) + (digitsVal q.1 : ℚ) / (10 : ℚ) ^ q.1.length
    finishMant (if p.1 then -mant else mant) q.2

/-- Python `float(s)` as a partial function to exact rationals. -/
def pyFloat (s : String) : Option ℚ := pyFloatCore (pyStripL s.data)

/-- Python `int(s)` (optional surrounding whitespace, optional sign, digits). -/
def pyInt (s : String) : Option Int :=
  let p := splitSign (pyStripL s.data)
  if p.2 ≠ [] ∧ p.2.all isDigitC then
    some (if p.1 then -(digitsVal p.2 : Int) else (digitsVal p.2 : Int))
  else none

/-- Python `s.replace(',', '.')`. -/
def commaToDot (s : String) : String :=
  String.mk (s.data.map (fun c => if c = ',' then '.' else c))

/-- `amount_str = row.get('Betrag', '0').replace(',', '.'); float(..) or 0.0`
— the inline amount coercion both builders perform per row. -/
def parse_amount (s : String) : ℚ := (pyFloat (commaToDot s)).getD 0

/-- Rounding used to model `f"{x:.2f}"` on the exact rational value. -/
def roundC (q : ℚ) : Int := Int.floor (q + 1 / 2)

/-- Two-digit zero-padded rendering of `n % 100`. -/
def twoDigits (r : Nat) : String := String.mk [Char.ofNat (48 + r / 10 % 10), Char.ofNat (48 + r % 10)]

/-- Rendering of a nonnegative cent count as `units.cc`. -/
def fmt2Nat (m : Nat) : String := Nat.repr (m / 100) ++ "." ++ twoDigits (m % 100)

/-- Python `f"{x:.2f}"` on the exact rational model of `x`. -/
def fmt2 (q : ℚ) : String :=
  let n : Int := roundC (q * 100)
  if n < 0 then "-" ++ fmt2Nat n.natAbs else fmt2Nat n.toNat

/-- Python `str(n)` for an `Int`. -/
def pyIntRepr (n : Int) : String :=
  if n < 0 then "-" ++ Nat.repr n.natAbs else Nat.repr n.toNat

/-- Python `s.split(sep)` for a single-character separator. -/
def pySplit : List Char → Char → List (List Char)
  | [], _ => [[]]
  | c :: cs, sep =>
    if c = sep then [] :: pySplit cs sep
    else
      match pySplit cs sep with
      | p :: ps => (c :: p) :: ps
      | [] => [[c]]

/-- Python `f"{n:0wd}"`: zero-pad to total width `w` (sign included). -/
def padInt (w : Nat) (n : Int) : String :=
  let digits := Nat.repr n.natAbs
  let body := if digits.length ≥ w - (if n < 0 then 1 else 0) then digits
    else String.mk (List.replicate (w - (if n < 0 then 1 else 0) - digits.length) '0') ++ digits
  if n < 0 then "-" ++ body else body

/-- The separator-trying loop of `convert_date`: for the first separator that
splits the string into exactly three integer-parsable parts, return the
zero-padded `yyyy-mm-dd` rebuilt from the parts read day-month-year. -/
def convertDateTry (date_str : String) : List Char → String
  | [] => date_str
  | sep :: seps =>
    match pySplit date_str.data sep with
    | [p1, p2, p3] =>
      match pyInt (String.mk p1), pyInt (String.mk p2), pyInt (String.mk p3) with
      | some dd, some mm, some yyyy =>
        padInt 4 yyyy ++ "-" ++ padInt 2 mm ++ "-" ++ padInt 2 dd
      | _, _, _ => convertDateTry date_str seps
    | _ => convertDateTry date_str seps

/-- `convert_date` from `sepa_converter.py` (identical copy in `sepatool.py`):
empty input yields the fixed default, otherwise try `'.'`, `'/'`, `'-'` in
order and fall back to the original string. -/
def convert_date (date_str : String) : String :=
  if date_str = "" then "2025-01-01" else convertDateTry date_str ['.', '/', '-']

/-! ## XML element trees (model of `xml.etree.ElementTree` elements) -/

/-- An XML element: tag, attributes, optional text, child elements. -/
inductive XElem : Type where
  | mk (tag : String) (attrList : List (String × String)) (text : Option String)
      (children : List XElem)

/-- The element's tag. -/
def XElem.tag : XElem → String
  | .mk t _ _ _ => t

/-- The element's attribute list. -/
def XElem.attrList : XElem → List (String × String)
  | .mk _ a _ _ => a

/-- The element's text, `none` when never assigned. -/
def XElem.text : XElem → Option String
  | .mk _ _ tx _ => tx

/-- The element's list of children, in insertion order. -/
def XElem.children : XElem → List XElem
  | .mk _ _ _ cs => cs

/-- Leaf element with text (`ET.SubElement(parent, tag).text = txt`). -/
def el (tag txt : String) : XElem := .mk tag [] (some txt) []

/-- Container element with children and no text. -/
def box (tag : String) (cs : List XElem) : XElem := .mk tag [] none cs

/-- Leaf element with attributes and text. -/
def elA (tag : String) (attrList : List (String × String)) (txt : String) : XElem :=
  .mk tag attrList (some txt) []

/-- First child with the given tag (`elem.find(tag)`). -/
def findTag (t : String) (e : XElem) : Option XElem :=
  e.children.find? (fun c => c.tag == t)

/-- Walk a path of tags from an element. -/
def xfind (e : XElem) : List String → Option XElem
  | [] => some e
  | t :: ts =>
    match findTag t e with
    | some c => xfind c ts
    | none => none

/-- Text of the element reached by a path of tags. -/
def xtext (e : XElem) (p : List String) : Option String := (xfind e p).bind XElem.text

mutual

/-- Number of elements with the given tag in the whole subtree. -/
def countTag (t : String) : XElem → Nat
  | .mk tg _ _ cs => (if tg = t then 1 else 0) + countTagL t cs

/-- Total `countTag` over a list of subtrees. -/
def countTagL (t : String) : List XElem → Nat
  | [] => 0
  | c :: cs => countTag t c + countTagL t cs

end

/-! ## Rows and run inputs -/

/-- A CSV record: field name to field value, as produced by `csv.DictReader`. -/
def Row : Type := List (String × String)

/-- Python `row.get(key, default)`. -/
def rowGet (r : Row) (k d : String) : String :=
  match List.find? (fun p => p.1 == k) r with
  | some p => p.2
  | none => d

/-- Per-row amount used by both builders:
`float(row.get('Betrag', '0').replace(',', '.'))` with fallback `0.0`. -/
def rowAmt (r : Row) : ℚ := parse_amount (rowGet r "Betrag" "0")

/-- `total_amount` after the builder's traversal: sum of all parsed amounts. -/
def amountsTotal (rows : List Row) : ℚ := (rows.map rowAmt).sum

/-- The keyword arguments of the generators. -/
structure Settings where
  companyName : String
  sequenceType : String
  batchBooking : Bool

/-- Opaque run inputs: `uuid.uuid4()` tokens and `datetime.now()`, which the
code embeds verbatim; `e2eId i` is the token drawn for the `i`-th row. -/
structure Env where
  msgId : String
  creDtTm : String
  pmtInfId : String
  e2eId : Nat → String

/-- Python exceptions raised by the converter. -/
inductive PyError : Type where
  | valueError (msg : String)
deriving DecidableEq

/-! ## Direct-debit builder (`generate_pain008`) -/

/-- Root attributes of the pain.008 document. -/
def docAttrs008 : List (String × String) :=
  [("xmlns", "urn:iso:std:iso:20022:tech:xsd:pain.008.003.02"),
   ("xmlns:xsi", "http://www.w3.org/2001/XMLSchema-instance"),
   ("xsi:schemaLocation",
     "urn:iso:std:iso:20022:tech:xsd:pain.008.003.02 pain.008.003.02.xsd")]

/-- One `DrctDbtTxInf` block built from a row (children in emission order). -/
def ddTxInf (e2e : String) (r : Row) : XElem :=
  box "DrctDbtTxInf"
    [box "PmtId" [el "EndToEndId" e2e],
     elA "InstdAmt" [("Ccy", "EUR")] (fmt2 (rowAmt r)),
     box "DrctDbtTx"
       [box "MndtRltdInf"
         [el "MndtId" (rowGet r "Mandatsreferenz" "Mandat001"),
          el "DtOfSgntr" (convert_date (rowGet r "Mandatsaustellungsdatum" "2025-01-01")),
          el "AmdmntInd" "false"]],
     box "DbtrAgt" [box "FinInstnId" []],
     box "Dbtr" [el "Nm" (rowGet r "Zahlungspflichtiger-Name" "")],
     box "DbtrAcct" [box "Id" [el "IBAN" (rowGet r "Zahlungspflichtiger-IBAN" "")]],
     box "RmtInf" [el "Ustrd" (rowGet r "Verwendungszweck" "")]]

/-- The transaction blocks for all rows, row `i` using fresh token `e2eId i`. -/
def ddTxList (env : Env) (i : Nat) : List Row → List XElem
  | [] => []
  | r :: rs => ddTxInf (env.e2eId i) r :: ddTxList env (i + 1) rs

/-- The pain.008 document tree for a non-empty row list `r0 :: rest`, with the
post-traversal `NbOfTxs`/`CtrlSum` stamps substituted in place. -/
def pain008Doc (env : Env) (cfg : Settings) (r0 : Row) (rest : List Row) : XElem :=
  XElem.mk "Document" docAttrs008 none
    [box "CstmrDrctDbtInitn"
      [box "GrpHdr"
        ([el "MsgId" env.msgId,
          el "CreDtTm" env.creDtTm,
          el "NbOfTxs" (Nat.repr (r0 :: rest).length),
          el "CtrlSum" (fmt2 (amountsTotal (r0 :: rest))),
          el "Grpg" "GRPD",
          box "InitgPty" [el "Nm" cfg.companyName]] ++
         (if cfg.batchBooking then [el "BtchBookg" "true"] else [])),
       box "PmtInf"
        ([el "PmtInfId" env.pmtInfId,
          el "PmtMtd" "DD",
          el "NbOfTxs" (Nat.repr (r0 :: rest).length),
          el "CtrlSum" (fmt2 (amountsTotal (r0 :: rest))),
          box "PmtTpInf"
            [box "SvcLvl" [el "Cd" "SEPA"],
             box "LclInstrm" [el "Cd" "CORE"],
             el "SeqTp" cfg.sequenceType],
          el "ReqdColltnDt" (convert_date (rowGet r0 "Faelligkeitsdatum" "2025-01-01")),
          box "Cdtr" [el "Nm" cfg.companyName],
          box "CdtrAcct" [box "Id" [el "IBAN" (rowGet r0 "Auftraggeber-IBAN" "")]],
          box "CdtrAgt" [box "FinInstnId" []],
          el "ChrgBr" "SLEV",
          box "CdtrSchmeId"
            [box "Id"
              [box "PrvtId"
                [box "Othr"
                  [el "Id" (rowGet r0 "Creditor-ID" "DE99ZZZ09999999999"),
                   box "SchmeNm" [el "Prtry" "SEPA"]]]]]] ++
         ddTxList env 0 (r0 :: rest))]]

/-- `generate_pain008(input_csv, ...)` after `read_csv`: empty row list raises
`ValueError("CSV contains no data")` before anything is written; otherwise the
document tree is built and written out. -/
def generate_pain008 (env : Env) (cfg : Settings) : List Row → Except PyError XElem
  | [] => .error (.valueError "CSV contains no data")
  | r0 :: rest => .ok (pain008Doc env cfg r0 rest)

/-! ## Credit-transfer builder (`generate_pain001`) -/

/-- Root attributes of the pain.001 document. -/
def docAttrs001 : List (String × String) :=
  [("xmlns", "urn:iso:std:iso:20022:tech:xsd:pain.001.003.03"),
   ("xmlns:xsi", "http://www.w3.org/2001/XMLSchema-instance"),
   ("xsi:schemaLocation",
     "urn:iso:std:iso:20022:tech:xsd:pain.001.003.03 pain.001.003.03.xsd")]

/-- One `CdtTrfTxInf` block built from a row; the creditor `BIC` child exists
only when the row's `Empfaenger-BIC` field is non-empty (Python truthiness). -/
def ctTxInf (e2e : String) (r : Row) : XElem :=
  box "CdtTrfTxInf"
    [box "PmtId" [el "EndToEndId" e2e],
     box "Amt" [elA "InstdAmt" [("Ccy", "EUR")] (fmt2 (rowAmt r))],
     box "CdtrAgt"
       [box "FinInstnId"
         (if rowGet r "Empfaenger-BIC" "" = "" then []
          else [el "BIC" (rowGet r "Empfaenger-BIC" "")])],
     box "Cdtr" [el "Nm" (rowGet r "Empfaenger-Name" "")],
     box "CdtrAcct" [box "Id" [el "IBAN" (rowGet r "Empfaenger-IBAN" "")]],
     box "RmtInf" [el "Ustrd" (rowGet r "Verwendungszweck" "")]]

/-- The credit-transfer transaction blocks for all rows, in row order. -/
def ctTxList (env : Env) (i : Nat) : List Row → List XElem
  | [] => []
  | r :: rs => ctTxInf (env.e2eId i) r :: ctTxList env (i + 1) rs

/-- The pain.001 document tree for a non-empty row list `r0 :: rest`. -/
def pain001Doc (env : Env) (cfg : Settings) (r0 : Row) (rest : List Row) : XElem :=
  XElem.mk "Document" docAttrs001 none
    [box "CstmrCdtTrfInitn"
      [box "GrpHdr"
        ([el "MsgId" env.msgId,
          el "CreDtTm" env.creDtTm,
          el "NbOfTxs" (Nat.repr (r0 :: rest).length),
          el "CtrlSum" (fmt2 (amountsTotal (r0 :: rest))),
          el "Grpg" "GRPD",
          box "InitgPty" [el "Nm" cfg.companyName]] ++
         (if cfg.batchBooking then [el "BtchBookg" "true"] else [])),
       box "PmtInf"
        ([el "PmtInfId" env.pmtInfId,
          el "PmtMtd" "TRF",
          el "NbOfTxs" (Nat.repr (r0 :: rest).length),
          el "CtrlSum" (fmt2 (amountsTotal (r0 :: rest))),
          box "PmtTpInf" [box "SvcLvl" [el "Cd" "SEPA"]],
          el "ReqdExctnDt" (convert_date (rowGet r0 "Durchfuehrungsdatum" "2025-01-01")),
          box "Dbtr" [el "Nm" cfg.companyName],
          box "DbtrAcct" [box "Id" [el "IBAN" (rowGet r0 "Auftraggeber-IBAN" "")]],
          box "DbtrAgt"
            [box "FinInstnId"
              (if rowGet r0 "Auftraggeber-BIC" "" = "" then []
               else [el "BIC" (rowGet r0 "Auftraggeber-BIC" "")])],
          el "ChrgBr" "SLEV"] ++
         ctTxList env 0 (r0 :: rest))]]

/-- `generate_pain001(input_csv, ...)` after `read_csv`. -/
def generate_pain001 (env : Env) (cfg : Settings) : List Row → Except PyError XElem
  | [] => .error (.valueError "CSV contains no data for Überweisung.")
  | r0 :: rest => .ok (pain001Doc env cfg r0 rest)

/-! ## GUI entry point (`SepaTool.start_processing`)

`sepatool.py` duplicates the two builders with the same element structure;
`start_processing` performs the input checks, then dispatches on the mode.
Each early `return` after `self.log("ERROR: ...")` is an error result with
no output written. -/

/-- Error outcomes of `start_processing`, one per logged `ERROR:` branch. -/
inductive GuiError : Type where
  | invalidCsvPath
  | noOutputPath
  | emptyCompanyName
  | emptyCsv
deriving DecidableEq

/-- The scalar state `start_processing` reads from the form, plus the parsed
content of the CSV file behind `csv_path`. -/
structure GuiState where
  csvIsFile : Bool
  outputPath : String
  companyEntry : String
  mode : String
  batch : Bool
  seqType : String
  csvRows : List Row

/-- `SepaTool.start_processing`: validations in source order (input path,
output path, stripped company name, empty CSV), then document generation. -/
def start_processing (env : Env) (st : GuiState) : Except GuiError XElem :=
  if ¬ st.csvIsFile then .error .invalidCsvPath
  else if st.outputPath = "" then .error .noOutputPath
  else if pyStrip st.companyEntry = "" then .error .emptyCompanyName
  else
    match st.csvRows with
    | [] => .error .emptyCsv
    | r0 :: rest =>
      let cfg : Settings :=
        { companyName := pyStrip st.companyEntry,
          sequenceType := st.seqType,
          batchBooking := st.batch }
      if st.mode = "lastschrift" then .ok (pain008Doc env cfg r0 rest)
      else .ok (pain001Doc env cfg r0 rest)

/-! ## Shared fixtures for concrete instantiations -/

/-- Fixed opaque-token environment used for concrete instantiations. -/
def sampleEnv : Env :=
  { msgId := "MSG-1", creDtTm := "2025-06-01T12:00:00", pmtInfId := "PMT-1",
    e2eId := fun i => "E2E-" ++ Nat.repr i }

/-- A concrete direct-debit row. -/
def sampleRow : Row :=
  [("Betrag", "100,50"), ("Zahlungspflichtiger-Name", "Alice"),
   ("Zahlungspflichtiger-IBAN", "DE12345678901234567890"),
   ("Verwendungszweck", "Invoice 1")]

/-! ## Helper lemmas -/

/-- A digit character differs from any character whose code is outside 48–57. -/
theorem digit_ne (c : Char) (h : isDigitC c = true) (d : Char)
    (hd : d.toNat < 48 ∨ 57 < d.toNat) : c ≠ d := by
  intro e
  subst e
  simp only [isDigitC, Bool.and_eq_true, decide_eq_true_eq] at h
  omega

/-- The zero-padded digit characters of `twoDigits` are never `'.'`. -/
theorem digitChar_ne_dot (y : Nat) (h : y < 10) : (Char.ofNat (48 + y) != '.') = true := by
  interval_cases y <;> decide

/-- `fmt2Nat` in reversed-character form: two fraction digits, the dot, then
the reversed units digits. -/
theorem fmt2Nat_data_reverse (m : Nat) :
    (fmt2Nat m).data.reverse =
      Char.ofNat (48 + m % 100 % 10) :: Char.ofNat (48 + m % 100 / 10 % 10) :: '.' ::
        (Nat.repr (m / 100)).data.reverse := by
  rw [fmt2Nat, twoDigits, String.data_append, String.data_append]
  simp

/-- Every `fmt2` rendering carries exactly two characters after the last dot:
the claimed 2-decimal formatting of `f"{x:.2f}"`. -/
theorem fmt2_two_decimals (q : ℚ) :
    ((fmt2 q).data.reverse.takeWhile (fun c => c != '.')).length = 2 := by
  have key : ∀ m : Nat, ∀ tail : List Char,
      (((fmt2Nat m).data.reverse ++ tail).takeWhile (fun c => c != '.')).length = 2 := by
    intro m tail
    rw [fmt2Nat_data_reverse]
    have h1 := digitChar_ne_dot (m % 100 % 10) (Nat.mod_lt _ (by norm_num))
    have h2 := digitChar_ne_dot (m % 100 / 10 % 10) (Nat.mod_lt _ (by norm_num))
    simp [List.takeWhile_cons, h1, h2]
  rw [fmt2]
  by_cases hn : roundC (q * 100) < 0
  · simp only [hn, if_true]
    rw [String.data_append]
    have : ("-" : String).data = ['-'] := rfl
    rw [this]
    simpa using key (roundC (q * 100)).natAbs ['-']
  · simp only [hn, if_false]
    simpa using key (roundC (q * 100)).toNat []

/-! ## Claim theorems -/

/-- C1: in both builders the group-header `NbOfTxs`/`CtrlSum` equal the
payment-block `NbOfTxs`/`CtrlSum`, and both equal the row count and the sum
of the per-row parsed amounts rendered by the 2-decimal formatter, for every
non-empty row sequence. -/
theorem C1_counts_and_control_sums (env : Env) (cfg : Settings) (r0 : Row) (rest : List Row) :
    generate_pain008 env cfg (r0 :: rest) = Except.ok (pain008Doc env cfg r0 rest) ∧
    generate_pain001 env cfg (r0 :: rest) = Except.ok (pain001Doc env cfg r0 rest) ∧
    xtext (pain008Doc env cfg r0 rest) ["CstmrDrctDbtInitn", "GrpHdr", "NbOfTxs"] =
      some (Nat.repr (r0 :: rest).length) ∧
    xtext (pain008Doc env cfg r0 rest) ["CstmrDrctDbtInitn", "PmtInf", "NbOfTxs"] =
      some (Nat.repr (r0 :: rest).length) ∧
    xtext (pain008Doc env cfg r0 rest) ["CstmrDrctDbtInitn", "GrpHdr", "CtrlSum"] =
      some (fmt2 (amountsTotal (r0 :: rest))) ∧
    xtext (pain008Doc env cfg r0 rest) ["CstmrDrctDbtInitn", "PmtInf", "CtrlSum"] =
      some (fmt2 (amountsTotal (r0 :: rest))) ∧
    xtext (pain001Doc env cfg r0 rest) ["CstmrCdtTrfInitn", "GrpHdr", "NbOfTxs"] =
      some (Nat.repr (r0 :: rest).length) ∧
    xtext (pain001Doc env cfg r0 rest) ["CstmrCdtTrfInitn", "PmtInf", "NbOfTxs"] =
      some (Nat.repr (r0 :: rest).length) ∧
    xtext (pain001Doc env cfg r0 rest) ["CstmrCdtTrfInitn", "GrpHdr", "CtrlSum"] =
      some (fmt2 (amountsTotal (r0 :: rest))) ∧
    xtext (pain001Doc env cfg r0 rest) ["CstmrCdtTrfInitn", "PmtInf", "CtrlSum"] =
      some (fmt2 (amountsTotal (r0 :: rest))) ∧
    (∀ q : ℚ, ((fmt2 q).data.reverse.takeWhile (fun c => c != '.')).length = 2) :=
  ⟨rfl, rfl, rfl, rfl, rfl, rfl, rfl, rfl, rfl, rfl, fmt2_two_decimals⟩

/-- C2 counterexample: `"31.01.2025"` is a valid date string with a
recognized separator and three integer parts, and normalizes to
`"2025-01-31"`, yet re-normalizing changes the value again — the claimed
idempotence fails at this input. -/
theorem C2_counterexample :
    convert_date "31.01.2025" = "2025-01-31" ∧
    convert_date (convert_date "31.01.2025") ≠ convert_date "31.01.2025" := by
  constructor
  · decide
  · decide

/-- C2 amended: `convert_date "31.01.2025" = "2025-01-31"` holds, but the
normalizer is not idempotent — re-normalizing an already-normalized
`yyyy-mm-dd` string re-reads it as day-month-year, so the second application
swaps day and year: `convert_date "2025-01-31" = "0031-01-2025"`. -/
theorem C2_amended_normalizer :
    convert_date "31.01.2025" = "2025-01-31" ∧
    convert_date "2025-01-31" = "0031-01-2025" ∧
    convert_date (convert_date "31.01.2025") = "0031-01-2025" := by
  refine ⟨by decide, by decide, by decide⟩

/-- C3 counterexample: with the batch-booking flag set, the direct-debit
`GrpHdr` children are emitted `MsgId, CreDtTm, NbOfTxs, CtrlSum, Grpg,
InitgPty, BtchBookg` — `BtchBookg` comes after `InitgPty`, not before as
claimed. -/
theorem C3_counterexample :
    (xfind (pain008Doc sampleEnv ⟨"ACME", "RCUR", true⟩ sampleRow [])
        ["CstmrDrctDbtInitn", "GrpHdr"]).map (fun g => g.children.map XElem.tag) =
      some ["MsgId", "CreDtTm", "NbOfTxs", "CtrlSum", "Grpg", "InitgPty", "BtchBookg"] ∧
    (["MsgId", "CreDtTm", "NbOfTxs", "CtrlSum", "Grpg", "InitgPty", "BtchBookg"] : List String) ≠
      ["MsgId", "CreDtTm", "NbOfTxs", "CtrlSum", "Grpg", "BtchBookg", "InitgPty"] := by
  constructor
  · rfl
  · decide

/-- C3 amended: the `GrpHdr` children appear in the fixed order `MsgId,
CreDtTm, NbOfTxs, CtrlSum, Grpg, InitgPty`, with the optional `BtchBookg`
element last — when the batch-booking flag is set, `BtchBookg` follows
`InitgPty`. -/
theorem C3_amended_grphdr_order (env : Env) (cfg : Settings) (r0 : Row) (rest : List Row) :
    generate_pain008 env cfg (r0 :: rest) = Except.ok (pain008Doc env cfg r0 rest) ∧
    ∃ g, xfind (pain008Doc env cfg r0 rest) ["CstmrDrctDbtInitn", "GrpHdr"] = some g ∧
      g.children.map XElem.tag =
        ["MsgId", "CreDtTm", "NbOfTxs", "CtrlSum", "Grpg", "InitgPty"] ++
          (if cfg.batchBooking then ["BtchBookg"] else []) := by
  obtain ⟨cn, sq, bb⟩ := cfg
  cases bb
  · exact ⟨rfl, _, rfl, rfl⟩
  · exact ⟨rfl, _, rfl, rfl⟩

/-- C4: when the stripped company-name setting is blank, `start_processing`
produces no output document at all, and — whenever the earlier input-path
and output-path checks pass — it stops with the empty-company-name error. -/
theorem C4_blank_company_aborts (env : Env) (st : GuiState)
    (h : pyStrip st.companyEntry = "") :
    (∀ d, start_processing env st ≠ Except.ok d) ∧
    (st.csvIsFile = true → st.outputPath ≠ "" →
      start_processing env st = Except.error GuiError.emptyCompanyName) := by
  constructor
  · intro d
    by_cases h1 : st.csvIsFile
    · by_cases h2 : st.outputPath = "" <;> simp [start_processing, h1, h2, h]
    · simp [start_processing, h1]
  · intro h1 h2
    simp [start_processing, h1, h2, h]

/-- Form state with a whitespace-only company name and otherwise valid
inputs. -/
def stBlank : GuiState :=
  { csvIsFile := true, outputPath := "out.xml", companyEntry := "   ",
    mode := "lastschrift", batch := false, seqType := "RCUR", csvRows := [sampleRow] }

/-- C4 witness: the blank-company hypothesis is satisfiable and yields the
empty-company-name abort on a concrete form state. -/
theorem C4_blank_company_aborts_witness :
    start_processing sampleEnv stBlank = Except.error GuiError.emptyCompanyName :=
  (C4_blank_company_aborts sampleEnv stBlank (by decide)).2 (by decide) (by decide)

/-- C6: with zero data rows both builders fail with their empty-input
`ValueError` and produce no document. -/
theorem C6_empty_input (env : Env) (cfg : Settings) :
    generate_pain008 env cfg [] = Except.error (PyError.valueError "CSV contains no data") ∧
    generate_pain001 env cfg [] =
      Except.error (PyError.valueError "CSV contains no data for Überweisung.") :=
  ⟨rfl, rfl⟩

/-- C10: whatever string is supplied as the sequence-type setting — any
string, including the empty string — is embedded verbatim as the `SeqTp`
text of the direct-debit document; no membership check against
FRST/RCUR/OOFF/FNAL exists. -/
theorem C10_seqtp_verbatim (env : Env) (cfg : Settings) (r0 : Row) (rest : List Row) :
    generate_pain008 env cfg (r0 :: rest) = Except.ok (pain008Doc env cfg r0 rest) ∧
    xtext (pain008Doc env cfg r0 rest) ["CstmrDrctDbtInitn", "PmtInf", "PmtTpInf", "SeqTp"] =
      some cfg.sequenceType :=
  ⟨rfl, rfl⟩

/-! ## Lemmas on the transaction lists -/

/-- The credit-transfer transactions of a generated pain.001 document: the
`CdtTrfTxInf` children of its payment block. -/
def ctTxs (doc : XElem) : List XElem :=
  ((xfind doc ["CstmrCdtTrfInitn", "PmtInf"]).getD (box "" [])).children.filter
    (fun c => c.tag == "CdtTrfTxInf")

theorem countTagL_append (t : String) (l r : List XElem) :
    countTagL t (l ++ r) = countTagL t l + countTagL t r := by
  induction l with
  | nil => simp [countTagL]
  | cons c cs ih => simp [countTagL, ih, Nat.add_assoc]

theorem countTag_ddTxInf (e2e : String) (r : Row) :
    countTag "BtchBookg" (ddTxInf e2e r) = 0 := by
  simp [ddTxInf, countTag, countTagL, box, el, elA]

theorem countTagL_ddTxList (env : Env) (rows : List Row) :
    ∀ i, countTagL "BtchBookg" (ddTxList env i rows) = 0 := by
  induction rows with
  | nil => intro i; simp [ddTxList, countTagL]
  | cons r rs ih => intro i; simp [ddTxList, countTagL, countTag_ddTxInf, ih]

theorem ctTxList_length (env : Env) (rows : List Row) :
    ∀ i, (ctTxList env i rows).length = rows.length := by
  induction rows with
  | nil => intro i; rfl
  | cons r rs ih => intro i; simp [ctTxList, ih]

theorem ctTxList_filter (env : Env) (rows : List Row) :
    ∀ i, (ctTxList env i rows).filter (fun c => c.tag == "CdtTrfTxInf") =
      ctTxList env i rows := by
  induction rows with
  | nil => intro i; rfl
  | cons r rs ih =>
    intro i
    show List.filter _ (ctTxInf (env.e2eId i) r :: ctTxList env (i + 1) rs) = _
    rw [List.filter_cons, ih]
    rfl

theorem ctTxList_getElem? (env : Env) (rows : List Row) :
    ∀ i k, (ctTxList env i rows)[k]? =
      (rows[k]?).map (fun r => ctTxInf (env.e2eId (i + k)) r) := by
  induction rows with
  | nil => intro i k; simp [ctTxList]
  | cons r rs ih =>
    intro i k
    cases k with
    | zero => simp [ctTxList]
    | succ k =>
      have := ih (i + 1) k
      simpa [ctTxList, Nat.add_assoc, Nat.add_comm 1 k] using this

theorem ctTxs_pain001 (env : Env) (cfg : Settings) (r0 : Row) (rest : List Row) :
    ctTxs (pain001Doc env cfg r0 rest) = ctTxList env 0 (r0 :: rest) := by
  show (_ ++ ctTxList env 0 (r0 :: rest)).filter (fun c => c.tag == "CdtTrfTxInf") = _
  rw [List.filter_append, ctTxList_filter]
  rfl

/-- The `InstdAmt` text inside a `CdtTrfTxInf`, reached through the extra
`Amt` wrapper. -/
theorem ctTxInf_amt_nested (e2e : String) (r : Row) :
    xtext (ctTxInf e2e r) ["Amt", "InstdAmt"] = some (fmt2 (rowAmt r)) ∧
    findTag "InstdAmt" (ctTxInf e2e r) = none ∧
    xtext (ddTxInf e2e r) ["InstdAmt"] = some (fmt2 (rowAmt r)) ∧
    findTag "Amt" (ddTxInf e2e r) = none :=
  ⟨rfl, rfl, rfl, rfl⟩

/-- C7: the credit-transfer builder emits exactly one `CdtTrfTxInf` per row
in the original row order, the amount sits one level deeper than in the
direct-debit variant (an `Amt` container wraps `InstdAmt`), and the stamped
`NbOfTxs`/`CtrlSum` are the row count and formatted amount sum. -/
theorem C7_credit_transfer_transactions (env : Env) (cfg : Settings) (r0 : Row)
    (rest : List Row) :
    generate_pain001 env cfg (r0 :: rest) = Except.ok (pain001Doc env cfg r0 rest) ∧
    (ctTxs (pain001Doc env cfg r0 rest)).length = (r0 :: rest).length ∧
    (∀ k : Nat, (ctTxs (pain001Doc env cfg r0 rest))[k]? =
      ((r0 :: rest)[k]?).map (fun r => ctTxInf (env.e2eId k) r)) ∧
    (∀ e2e r, xtext (ctTxInf e2e r) ["Amt", "InstdAmt"] = some (fmt2 (rowAmt r)) ∧
      findTag "InstdAmt" (ctTxInf e2e r) = none ∧
      xtext (ddTxInf e2e r) ["InstdAmt"] = some (fmt2 (rowAmt r)) ∧
      findTag "Amt" (ddTxInf e2e r) = none) ∧
    xtext (pain001Doc env cfg r0 rest) ["CstmrCdtTrfInitn", "GrpHdr", "NbOfTxs"] =
      some (Nat.repr (r0 :: rest).length) ∧
    xtext (pain001Doc env cfg r0 rest) ["CstmrCdtTrfInitn", "GrpHdr", "CtrlSum"] =
      some (fmt2 (amountsTotal (r0 :: rest))) := by
  refine ⟨rfl, ?_, ?_, ctTxInf_amt_nested, rfl, rfl⟩
  · rw [ctTxs_pain001, ctTxList_length]
  · intro k
    rw [ctTxs_pain001, ctTxList_getElem?]
    simp

/-- The optional creditor `BIC` inside one `CdtTrfTxInf`: present with the
row's value exactly when the row field is non-empty. -/
theorem ctTxInf_bic (e2e : String) (r : Row) :
    xtext (ctTxInf e2e r) ["CdtrAgt", "FinInstnId", "BIC"] =
      (if rowGet r "Empfaenger-BIC" "" = "" then none
       else some (rowGet r "Empfaenger-BIC" "")) := by
  by_cases h : rowGet r "Empfaenger-BIC" "" = "" <;>
    simp [ctTxInf, xtext, xfind, findTag, box, el, elA, h,
      XElem.children, XElem.tag, XElem.text]

/-- C8: in credit-transfer mode a `BIC` element appears under a
`FinInstnId` exactly when the corresponding row field is non-empty — the
debtor BIC from the first row's `Auftraggeber-BIC`, and each transaction's
creditor BIC from that row's `Empfaenger-BIC`. -/
theorem C8_optional_bic (env : Env) (cfg : Settings) (r0 : Row) (rest : List Row) :
    generate_pain001 env cfg (r0 :: rest) = Except.ok (pain001Doc env cfg r0 rest) ∧
    xtext (pain001Doc env cfg r0 rest)
        ["CstmrCdtTrfInitn", "PmtInf", "DbtrAgt", "FinInstnId", "BIC"] =
      (if rowGet r0 "Auftraggeber-BIC" "" = "" then none
       else some (rowGet r0 "Auftraggeber-BIC" "")) ∧
    (∀ e2e r, xtext (ctTxInf e2e r) ["CdtrAgt", "FinInstnId", "BIC"] =
      (if rowGet r "Empfaenger-BIC" "" = "" then none
       else some (rowGet r "Empfaenger-BIC" ""))) ∧
    (∀ k : Nat, ((ctTxs (pain001Doc env cfg r0 rest))[k]?).map
        (fun tx => xtext tx ["CdtrAgt", "FinInstnId", "BIC"]) =
      ((r0 :: rest)[k]?).map
        (fun r => if rowGet r "Empfaenger-BIC" "" = "" then none
          else some (rowGet r "Empfaenger-BIC" ""))) := by
  refine ⟨rfl, ?_, ctTxInf_bic, ?_⟩
  · by_cases h : rowGet r0 "Auftraggeber-BIC" "" = "" <;>
      simp [pain001Doc, xtext, xfind, findTag, box, el, elA, h,
        XElem.children, XElem.tag, XElem.text]
  · intro k
    rw [ctTxs_pain001, ctTxList_getElem?]
    cases h : (r0 :: rest)[k]? with
    | none => rfl
    | some r => simp [ctTxInf_bic]

/-- C9: the direct-debit builder emits `BtchBookg` (with text `"true"`) as a
direct child of `GrpHdr` only — exactly one occurrence in the whole document
when the flag is set, none at the payment-block level, and none anywhere
when the flag is unset. -/
theorem C9_batch_booking_grphdr_only (env : Env) (cfg : Settings) (r0 : Row)
    (rest : List Row) :
    countTag "BtchBookg" (pain008Doc env cfg r0 rest) =
      (if cfg.batchBooking then 1 else 0) ∧
    (∀ pm, xfind (pain008Doc env cfg r0 rest) ["CstmrDrctDbtInitn", "PmtInf"] = some pm →
      countTag "BtchBookg" pm = 0) ∧
    (cfg.batchBooking = true →
      ∃ g, xfind (pain008Doc env cfg r0 rest) ["CstmrDrctDbtInitn", "GrpHdr"] = some g ∧
        g.children.filter (fun c => c.tag == "BtchBookg") = [el "BtchBookg" "true"]) ∧
    (cfg.batchBooking = false → countTag "BtchBookg" (pain008Doc env cfg r0 rest) = 0) := by
  obtain ⟨cn, sq, bb⟩ := cfg
  cases bb
  case false =>
    refine ⟨?_, ?_, ?_, ?_⟩
    · simp [pain008Doc, countTag, countTagL, box, el, elA, ddTxInf,
        countTagL_append, countTagL_ddTxList, docAttrs008]
    · intro pm hpm
      cases hpm
      simp [countTag, countTagL, box, el, elA, ddTxInf,
        countTagL_append, countTagL_ddTxList]
    · intro h
      cases h
    · intro h
      simp [pain008Doc, countTag, countTagL, box, el, elA, ddTxInf,
        countTagL_append, countTagL_ddTxList, docAttrs008]
  case true =>
    refine ⟨?_, ?_, ?_, ?_⟩
    · simp [pain008Doc, countTag, countTagL, box, el, elA, ddTxInf,
        countTagL_append, countTagL_ddTxList, docAttrs008]
    · intro pm hpm
      cases hpm
      simp [countTag, countTagL, box, el, elA, ddTxInf,
        countTagL_append, countTagL_ddTxList]
    · intro h
      exact ⟨_, rfl, rfl⟩
    · intro h
      cases h

/-- C9 witness: concrete instantiations with the flag set and unset. -/
theorem C9_batch_booking_grphdr_only_witness :
    countTag "BtchBookg" (pain008Doc sampleEnv ⟨"ACME", "RCUR", true⟩ sampleRow []) = 1 ∧
    countTag "BtchBookg" (pain008Doc sampleEnv ⟨"ACME", "RCUR", false⟩ sampleRow []) = 0 ∧
    (∃ g, xfind (pain008Doc sampleEnv ⟨"ACME", "RCUR", true⟩ sampleRow [])
        ["CstmrDrctDbtInitn", "GrpHdr"] = some g ∧
      g.children.filter (fun c => c.tag == "BtchBookg") = [el "BtchBookg" "true"]) := by
  obtain ⟨h1, -, h3, -⟩ :=
    C9_batch_booking_grphdr_only sampleEnv ⟨"ACME", "RCUR", true⟩ sampleRow []
  obtain ⟨-, -, -, h4⟩ :=
    C9_batch_booking_grphdr_only sampleEnv ⟨"ACME", "RCUR", false⟩ sampleRow []
  exact ⟨by simpa using h1, h4 rfl, h3 rfl⟩

/-! ## Lemmas for the amount parser -/

theorem data_ne_nil {a : String} (h : a ≠ "") : a.data ≠ [] := by
  intro hn
  apply h
  cases a
  simp only at hn
  subst hn
  rfl

theorem digit_not_space (c : Char) (h : isDigitC c = true) : isSpaceC c = false := by
  simp only [isDigitC, Bool.and_eq_true, decide_eq_true_eq] at h
  simp only [isSpaceC, Bool.or_eq_false_iff, decide_eq_false_iff_not]
  omega

theorem all_digits_map_comma (l : List Char) (h : l.all isDigitC = true) :
    l.map (fun c => if c = ',' then '.' else c) = l := by
  induction l with
  | nil => rfl
  | cons c cs ih =>
    simp only [List.all_cons, Bool.and_eq_true] at h
    have hc : c ≠ ',' := digit_ne c h.1 ',' (by decide)
    simp [hc, ih h.2]

theorem takeWhile_all_eq {p : Char → Bool} (l : List Char) (h : l.all p = true) :
    l.takeWhile p = l ∧ l.dropWhile p = [] := by
  induction l with
  | nil => exact ⟨rfl, rfl⟩
  | cons c cs ih =>
    simp only [List.all_cons, Bool.and_eq_true] at h
    simp [List.takeWhile_cons, List.dropWhile_cons, h.1, ih h.2]

theorem takeWhile_append_stop {p : Char → Bool} (l : List Char) (c : Char) (r : List Char)
    (hl : l.all p = true) (hc : p c = false) :
    (l ++ c :: r).takeWhile p = l ∧ (l ++ c :: r).dropWhile p = c :: r := by
  induction l with
  | nil => simp [List.takeWhile_cons, List.dropWhile_cons, hc]
  | cons a as ih =>
    simp only [List.all_cons, Bool.and_eq_true] at hl
    have := ih hl.2
    simp [List.takeWhile_cons, List.dropWhile_cons, hl.1, hc, this.1, this.2]

theorem dropWhile_no_space (l : List Char) (h : l.all (fun c => !isSpaceC c) = true) :
    l.dropWhile isSpaceC = l := by
  cases l with
  | nil => rfl
  | cons a t =>
    simp only [List.all_cons, Bool.and_eq_true, Bool.not_eq_true'] at h
    simp [List.dropWhile_cons, h.1]

theorem pyStripL_no_space (l : List Char) (h : l.all (fun c => !isSpaceC c) = true) :
    pyStripL l = l := by
  have hrev : l.reverse.all (fun c => !isSpaceC c) = true := by
    rw [List.all_reverse]
    exact h
  rw [pyStripL, dropWhile_no_space l h, dropWhile_no_space l.reverse hrev,
    List.reverse_reverse]

/-- Evaluation of the float parser on `digits.digits` inputs. -/
theorem pyFloatCore_digits_dot (a b : List Char) (ha : a ≠ [])
    (hda : a.all isDigitC = true) (hdb : b.all isDigitC = true) :
    pyFloatCore (a ++ '.' :: b) =
      some ((digitsVal a : ℚ) + (digitsVal b : ℚ) / (10 : ℚ) ^ b.length) := by
  obtain ⟨c0, as, rfl⟩ : ∃ c0 as, a = c0 :: as := by
    cases a with
    | nil => exact absurd rfl ha
    | cons x xs => exact ⟨x, xs, rfl⟩
  have hc0 : isDigitC c0 = true := by
    simp only [List.all_cons, Bool.and_eq_true] at hda
    exact hda.1
  have hm : c0 ≠ '-' := digit_ne c0 hc0 '-' (by decide)
  have hp : c0 ≠ '+' := digit_ne c0 hc0 '+' (by decide)
  have h1 : splitSign ((c0 :: as) ++ '.' :: b) = (false, (c0 :: as) ++ '.' :: b) := by
    simp [splitSign, hm, hp]
  have h2 := takeWhile_append_stop (p := isDigitC) (c0 :: as) '.' b hda (by decide)
  have h3 : takeFrac ('.' :: b) = (b, []) := by
    have hb := takeWhile_all_eq (p := isDigitC) b hdb
    simp [takeFrac, hb.1, hb.2]
  rw [pyFloatCore, h1]
  simp only [h2.1, h2.2, h3]
  simp [finishMant]

/-- Evaluation of Python `float` on `digits.digits` strings. -/
theorem pyFloat_digits_dot (a b : List Char) (ha : a ≠ [])
    (hda : a.all isDigitC = true) (hdb : b.all isDigitC = true) :
    pyFloat (String.mk (a ++ '.' :: b)) =
      some ((digitsVal a : ℚ) + (digitsVal b : ℚ) / (10 : ℚ) ^ b.length) := by
  have hns : (a ++ '.' :: b).all (fun c => !isSpaceC c) = true := by
    rw [List.all_append]
    refine Bool.and_eq_true .. |>.mpr ⟨?_, ?_⟩
    · exact List.all_eq_true.mpr fun c hc =>
        (by simpa using digit_not_space c (List.all_eq_true.mp hda c hc))
    · rw [List.all_cons]
      refine Bool.and_eq_true .. |>.mpr ⟨by decide, ?_⟩
      exact List.all_eq_true.mpr fun c hc =>
        (by simpa using digit_not_space c (List.all_eq_true.mp hdb c hc))
  rw [pyFloat]
  show pyFloatCore (pyStripL (a ++ '.' :: b)) = _
  rw [pyStripL_no_space _ hns]
  exact pyFloatCore_digits_dot a b ha hda hdb

/-- The comma-to-dot translation on `digits,digits` strings. -/
theorem commaToDot_digits (a b : String) (hda : allDigits a = true)
    (hdb : allDigits b = true) :
    commaToDot (a ++ "," ++ b) = String.mk (a.data ++ '.' :: b.data) ∧
    commaToDot (a ++ "." ++ b) = String.mk (a.data ++ '.' :: b.data) := by
  have hdata : ∀ c : Char, (a ++ String.mk [c] ++ b).data = a.data ++ c :: b.data := by
    intro c
    rw [String.data_append, String.data_append]
    simp
  constructor
  · rw [commaToDot]
    have : ("," : String) = String.mk [','] := rfl
    rw [this, hdata ',']
    simp only [List.map_append, List.map_cons]
    rw [all_digits_map_comma a.data hda, all_digits_map_comma b.data hdb]
    norm_num
  · rw [commaToDot]
    have : ("." : String) = String.mk ['.'] := rfl
    rw [this, hdata '.']
    simp only [List.map_append, List.map_cons]
    rw [all_digits_map_comma a.data hda, all_digits_map_comma b.data hdb]
    norm_num

/-- `fmt2` of a zero amount. -/
theorem fmt2_zero : fmt2 0 = "0.00" := by
  have h0 : roundC ((0 : ℚ) * 100) = 0 := by
    rw [roundC]
    norm_num
  rw [fmt2, h0]
  decide

/-- C5: an amount written with a comma decimal separator parses to the same
value as its dot-decimal form (the integer-part dot fraction-part value), and
any string the float parser rejects after comma-to-dot replacement is
treated as zero and emitted as `InstdAmt` text `"0.00"` in both builders. -/
theorem C5_amount_parsing :
    (∀ a b : String, a ≠ "" → b ≠ "" → allDigits a = true → allDigits b = true →
      parse_amount (a ++ "," ++ b) =
        (digitsValStr a : ℚ) + (digitsValStr b : ℚ) / (10 : ℚ) ^ b.length ∧
      parse_amount (a ++ "," ++ b) = parse_amount (a ++ "." ++ b)) ∧
    (∀ s : String, pyFloat (commaToDot s) = none →
      parse_amount s = 0 ∧ fmt2 (parse_amount s) = "0.00") ∧
    (∀ e2e : String, ∀ r : Row, pyFloat (commaToDot (rowGet r "Betrag" "0")) = none →
      xtext (ddTxInf e2e r) ["InstdAmt"] = some "0.00" ∧
      xtext (ctTxInf e2e r) ["Amt", "InstdAmt"] = some "0.00") := by
  have key : ∀ a b : String, a ≠ "" → allDigits a = true → allDigits b = true →
      ∀ c : Char, commaToDot (a ++ String.mk [c] ++ b) = String.mk (a.data ++ '.' :: b.data) →
      parse_amount (a ++ String.mk [c] ++ b) =
        (digitsValStr a : ℚ) + (digitsValStr b : ℚ) / (10 : ℚ) ^ b.length := by
    intro a b ha hda hdb c hcd
    rw [parse_amount, hcd,
      pyFloat_digits_dot a.data b.data (data_ne_nil ha) hda hdb]
    rfl
  refine ⟨?_, ?_, ?_⟩
  · intro a b ha hb hda hdb
    obtain ⟨h1, h2⟩ := commaToDot_digits a b hda hdb
    have e1 := key a b ha hda hdb ',' h1
    have e2 := key a b ha hda hdb '.' h2
    exact ⟨e1, e1.trans e2.symm⟩
  · intro s h
    have hz : parse_amount s = 0 := by
      rw [parse_amount, h]
      rfl
    exact ⟨hz, by rw [hz, fmt2_zero]⟩
  · intro e2e r h
    have hz : rowAmt r = 0 := by
      rw [rowAmt, parse_amount, h]
      rfl
    constructor
    · show some (fmt2 (rowAmt r)) = some "0.00"
      rw [hz, fmt2_zero]
    · show some (fmt2 (rowAmt r)) = some "0.00"
      rw [hz, fmt2_zero]

/-- C5 witness: the hypotheses hold at `"1234,56"` (digits-comma-digits) and
at the unparseable `"abc"` / a row carrying `Betrag = "abc"`. -/
theorem C5_amount_parsing_witness :
    parse_amount ("1234" ++ "," ++ "56") =
      (digitsValStr "1234" : ℚ) + (digitsValStr "56" : ℚ) / (10 : ℚ) ^ ("56" : String).length ∧
    parse_amount "abc" = 0 ∧
    xtext (ddTxInf "E2E-0" [("Betrag", "abc")]) ["InstdAmt"] = some "0.00" :=
  ⟨(C5_amount_parsing.1 "1234" "56" (by decide) (by decide) (by decide) (by decide)).1,
   (C5_amount_parsing.2.1 "abc" (by decide)).1,
   (C5_amount_parsing.2.2 "E2E-0" [("Betrag", "abc")] (by decide)).1⟩
